import Mathlib

/-!
Verification of the memorable-ids library (Go sources `dictionary.go` and
`memorable_ids.go`) against its natural-language specification.

Modelling conventions:
* Go `int` is a 64-bit two's-complement machine integer; it is embedded as
  `Int` with every multiplication that may overflow reduced by `wrap64`
  (reduction modulo 2^64 into the interval [-2^63, 2^63)).
* Go `float64` values are embedded as real numbers (`ℝ`); `math.Exp` becomes
  `Real.exp`.  Conversions `float64(i)` become the coercion `(i : ℝ)`.
* `rand.Intn n` returns an arbitrary value in `[0, n)`; a random outcome is
  embedded as an arbitrary natural number reduced `% n`, so that every
  achievable outcome corresponds to some draw value and the model is total.
* Go `strings.Split`/`strings.Join` become `stringsSplit` (defined below by
  structural recursion so that it evaluates inside the kernel) and
  `String.intercalate`; the separator is never empty on any program path
  reaching them.
-/

namespace MemorableIds

/-- Word list `Adjectives` from `dictionary.go` (verbatim, in source order). -/
def Adjectives : List String :=
  ["cute", "dapper", "large", "small", "long", "short", "thick", "narrow",
   "deep", "flat", "whole", "low", "high", "near", "far", "fast", "quick",
   "slow", "early", "late", "bright", "dark", "cloudy", "warm", "cool",
   "cold", "windy", "noisy", "loud", "quiet", "dry", "clear", "hard",
   "soft", "heavy", "light", "strong", "weak", "tidy", "clean", "dirty",
   "empty", "full", "close", "thirsty", "hungry", "fat", "old", "fresh",
   "dead", "healthy", "sweet", "sour", "bitter", "salty", "good", "bad",
   "great", "important", "useful", "expensive", "cheap", "free", "difficult",
   "able", "rich", "afraid", "brave", "fine", "sad", "proud", "comfortable",
   "happy", "clever", "interesting", "famous", "exciting", "funny", "kind",
   "polite", "fair", "busy", "lazy", "lucky", "careful", "safe", "dangerous"]

/-- Word list `Nouns` from `dictionary.go` (verbatim, in source order). -/
def Nouns : List String :=
  ["rabbit", "badger", "fox", "chicken", "bat", "deer", "snake", "hare",
   "hedgehog", "platypus", "mole", "mouse", "otter", "rat", "squirrel",
   "stoat", "weasel", "crow", "dove", "duck", "goose", "hawk", "heron",
   "kingfisher", "owl", "peacock", "pheasant", "pigeon", "robin", "rook",
   "sparrow", "starling", "swan", "ant", "bee", "butterfly", "dragonfly",
   "fly", "moth", "spider", "pike", "salmon", "trout", "frog", "newt",
   "toad", "crab", "lobster", "clam", "cockle", "mussel", "oyster", "snail",
   "cow", "dog", "donkey", "goat", "horse", "pig", "sheep", "ferret",
   "gerbil", "guinea-pig", "parrot", "book", "table", "chair", "lamp",
   "phone", "computer", "window", "door"]

/-- Word list `Verbs` from `dictionary.go` (verbatim, in source order). -/
def Verbs : List String :=
  ["sing", "play", "knit", "flounder", "dance", "listen", "run", "talk",
   "cuddle", "sit", "kiss", "hug", "whimper", "hide", "fight", "whisper",
   "cry", "snuggle", "walk", "drive", "loiter", "feel", "jump", "hop",
   "go", "marry", "engage", "sleep", "eat", "drink", "read", "write",
   "swim", "fly", "climb", "build", "create", "explore", "discover", "learn"]

/-- Word list `Adverbs` from `dictionary.go` (verbatim, in source order). -/
def Adverbs : List String :=
  ["jovially", "merrily", "cordially", "carefully", "correctly", "eagerly",
   "easily", "fast", "loudly", "patiently", "quickly", "quietly", "slowly",
   "gently", "firmly", "softly", "boldly", "bravely", "calmly", "clearly",
   "closely", "deeply", "directly", "exactly", "fairly", "freely", "fully"]

/-- Word list `Prepositions` from `dictionary.go` (verbatim, in source order). -/
def Prepositions : List String :=
  ["in", "on", "at", "by", "for", "with", "from", "to", "of", "about",
   "under", "over", "through", "between", "among", "during", "before",
   "after", "above", "below", "beside", "behind", "beyond", "within",
   "without", "across"]

/-- Embedding of the Go struct `DictionaryStats` (all fields are Go `int`). -/
structure DictionaryStats where
  adjectives : Int
  nouns : Int
  verbs : Int
  adverbs : Int
  prepositions : Int
deriving DecidableEq, Repr

/-- Embedding of `GetDictionaryStats` from `dictionary.go`: the length of each
word list, in the fixed order. -/
def GetDictionaryStats : DictionaryStats :=
  { adjectives := (Adjectives.length : Int)
    nouns := (Nouns.length : Int)
    verbs := (Verbs.length : Int)
    adverbs := (Adverbs.length : Int)
    prepositions := (Prepositions.length : Int) }

/-- Reduction of an integer into the signed 64-bit range [-2^63, 2^63),
modelling the wrap-around of Go `int` (64-bit two's complement) arithmetic. -/
def wrap64 (x : Int) : Int := (x + 2 ^ 63) % 2 ^ 64 - 2 ^ 63

/-- Embedding of `CalculateCombinations` from `memorable_ids.go`.  Components
outside 1..5 give 0; `suffixRange` below 1 is clamped to 1; otherwise the
lengths of the first `components` dictionaries are multiplied together and by
`suffixRange`, each Go `int` multiplication wrapping via `wrap64`. -/
def CalculateCombinations (components suffixRange : Int) : Int :=
  if components < 1 ∨ components > 5 then 0
  else
    let suffixRange := if suffixRange < 1 then 1 else suffixRange
    let stats := GetDictionaryStats
    let componentSizes : List Int :=
      [stats.adjectives, stats.nouns, stats.verbs, stats.adverbs,
       stats.prepositions]
    let total := (componentSizes.take components.toNat).foldl
      (fun t s => wrap64 (t * s)) 1
    wrap64 (total * suffixRange)

/-- The exact, unwrapped product named by the specification: the lengths of
the first `components` dictionaries in the fixed order, multiplied in
unbounded integer arithmetic. -/
def dictProduct (components : Int) : Int :=
  ([(Adjectives.length : Int), (Nouns.length : Int), (Verbs.length : Int),
    (Adverbs.length : Int), (Prepositions.length : Int)].take
      components.toNat).prod

/-- Embedding of the result struct `ParsedID`: word components plus an
optional suffix (`Suffix *string`, `nil` meaning absent). -/
structure ParsedID where
  components : List String
  suffix : Option String
deriving DecidableEq, Repr

/-- Model of the Go regular-expression test `regexp.MatchString("^\d+$", s)`:
in RE2, `\d` is exactly the ASCII digits `[0-9]`, and without multiline mode
`^`/`$` anchor to the whole string, so the match succeeds exactly on non-empty
strings made only of ASCII digits. -/
def isNumericSuffix (s : String) : Bool :=
  !s.data.isEmpty && s.data.all Char.isDigit

/-- Recursive worker for the model of Go `strings.Split` over character lists.
The first argument is fuel bounding the recursion depth; every call site uses
at least the length of the subject list, which always suffices because each
step consumes at least one character (the separator is non-empty on every
program path that splits). -/
def splitCharsAux (sep : List Char) : Nat → List Char → List (List Char)
  | _, [] => [[]]
  | 0, l => [l]
  | fuel + 1, c :: rest =>
      if sep.isPrefixOf (c :: rest) then
        [] :: splitCharsAux sep fuel ((c :: rest).drop sep.length)
      else
        match splitCharsAux sep fuel rest with
        | [] => [[c]]
        | h :: t => (c :: h) :: t

/-- Model of Go `strings.Split(s, sep)` for a non-empty separator: the
substrings around each leftmost non-overlapping occurrence of `sep`, always at
least one element (the whole string when `sep` does not occur, in particular
`[""]` for the empty string). -/
def stringsSplit (s sep : String) : List String :=
  (splitCharsAux sep.data s.data.length s.data).map (fun cs => String.mk cs)

/-- Embedding of `Parse` from `memorable_ids.go`: default the separator, split,
and classify the last part as a suffix when it is all digits. -/
def Parse (id separator : String) : ParsedID :=
  let sep := if separator = "" then "-" else separator
  let parts := stringsSplit id sep
  match parts.getLast? with
  | some lastPart =>
      if isNumericSuffix lastPart then
        { components := parts.dropLast, suffix := some lastPart }
      else
        { components := parts, suffix := none }
  | none => { components := [], suffix := none }

/-- Embedding of `randomItem` from `memorable_ids.go`:
`items[rand.Intn(len(items))]`.  The random outcome is supplied as an
arbitrary natural number `r`; the drawn index is `r % items.length`, so every
index below the length is reachable and the model is total. -/
def randomItem (items : List String) (r : Nat) : String :=
  items.getD (r % items.length) ""

/-- The fixed order of component dictionaries used by `Generate`
(`componentGenerators` in the source). -/
def componentDictionaries : List (List String) :=
  [Adjectives, Nouns, Verbs, Adverbs, Prepositions]

/-- Embedding of the Go struct `GenerateOptions`.  The suffix generator
(`Suffix SuffixGenerator`, possibly `nil`) is modelled as an optional stream of
invocation results: when a producer is supplied, its `k`-th invocation returns
the stream's value at `k` (`none` models a `nil` pointer result). -/
structure GenerateOptions where
  components : Int
  suffix : Option (Nat → Option String)
  separator : String

/-- Embedding of the body of `Generate` up to (but not including) the final
`strings.Join`, instrumented with the number of times the suffix producer was
invoked.  Returns the collected parts list and that invocation count, or the
validation error string. -/
def generateParts (options : GenerateOptions) (draws : Nat → Nat) :
    Except String (List String × Nat) :=
  let components := if options.components = 0 then 2 else options.components
  if components < 1 ∨ components > 5 then
    Except.error "components must be between 1 and 5"
  else
    let parts := (List.range components.toNat).map
      (fun i => randomItem (componentDictionaries.getD i []) (draws i))
    match options.suffix with
    | none => Except.ok (parts, 0)
    | some producer =>
        match producer 0 with
        | some suffixValue => Except.ok (parts ++ [suffixValue], 1)
        | none => Except.ok (parts, 1)

/-- Embedding of `Generate` from `memorable_ids.go`: defaults, validation,
component draws, optional suffix, joined with the separator.  The second
result component is the instrumented suffix-producer invocation count. -/
def Generate (options : GenerateOptions) (draws : Nat → Nat) :
    Except String (String × Nat) :=
  let separator := if options.separator = "" then "-" else options.separator
  match generateParts options draws with
  | Except.ok (parts, calls) =>
      Except.ok (String.intercalate separator parts, calls)
  | Except.error e => Except.error e

/-- Embedding of `CalculateCollisionProbability` from `memorable_ids.go`.
The Go expression `-float64(generatedIDs*generatedIDs)` squares in machine
integers first (hence `wrap64`) and only then converts to `float64`. -/
noncomputable def CalculateCollisionProbability
    (totalCombinations generatedIDs : Int) : ℝ :=
  if generatedIDs ≥ totalCombinations then 1
  else if generatedIDs ≤ 1 then 0
  else
    1 - Real.exp (-((wrap64 (generatedIDs * generatedIDs) : Int) : ℝ) /
      (2 * (totalCombinations : ℝ)))

/-- Model of the Go conversion `int(float64(total) * 0.8)`: truncation toward
zero of 4·total/5.  For every comparison the program makes with this value
(against candidate counts at most 50000) the exact-rational truncation agrees
with the `float64` computation: a divergence between the two would need
|total| ≥ 2^53, where the threshold is far beyond every candidate on both
readings, while below that the product 0.8·total has fractional part a
multiple of 1/5 and the relative float error (< 2^-51) cannot move it across
an integer boundary. -/
def floatThreshold (total : Int) : Int :=
  total.sign * ((4 * total.natAbs) / 5 : Nat)

/-- Modelled from the float-formatting in the source
(`fmt.Sprintf` with verb `%.2f` followed by a percent sign): the real value is
rounded to two decimal places (half away from zero in the model) and printed
with two digits after the point, then a percent sign.  No theorem evaluates
this function on a transcendental value; it serves to state that the
percentage field is precisely the two-decimal rendering of the probability
times 100. -/
noncomputable def fmtPercent2 (x : ℝ) : String :=
  let n : Int := ⌊x * 100 + 1 / 2⌋
  toString (n / 100) ++ "." ++
    (if n % 100 < 10 then "0" else "") ++ toString (n % 100) ++ "%"

/-- Embedding of the Go struct `CollisionScenario`. -/
structure CollisionScenario where
  ids : Int
  probability : ℝ
  percentage : String

/-- Embedding of the Go struct `CollisionAnalysis`. -/
structure CollisionAnalysis where
  totalCombinations : Int
  scenarios : List CollisionScenario

/-- The fixed candidate ID-counts (`testSizes` in the source). -/
def testSizes : List Int :=
  [50, 100, 200, 500, 1000, 2000, 5000, 10000, 20000, 50000]

/-- Embedding of `GetCollisionAnalysis` from `memorable_ids.go`: clamp the
suffix range, compute the total, and keep—in source order—every candidate size
strictly below `int(float64(total) * 0.8)`, pairing it with its collision
probability and formatted percentage. -/
noncomputable def GetCollisionAnalysis
    (components suffixRange : Int) : CollisionAnalysis :=
  let suffixRange := if suffixRange < 1 then 1 else suffixRange
  let total := CalculateCombinations components suffixRange
  let threshold := floatThreshold total
  let scenarios := testSizes.foldl
    (fun acc size =>
      if size < threshold then
        acc ++ [{ ids := size
                  probability := CalculateCollisionProbability total size
                  percentage := fmtPercent2
                    (CalculateCollisionProbability total size * 100) }]
      else acc) []
  { totalCombinations := total, scenarios := scenarios }

/-! Helper lemmas (shared) -/

/-- Evaluation of the dictionary statistics on the shipped word lists. -/
lemma getDictionaryStats_eval :
    GetDictionaryStats =
      { adjectives := 87, nouns := 72, verbs := 40, adverbs := 27,
        prepositions := 26 } := by
  decide

/-- Wrapping is the identity on values already inside the signed 64-bit
range. -/
lemma wrap64_eq_self (x : Int) (hlo : -(2 ^ 63) ≤ x) (hhi : x < 2 ^ 63) :
    wrap64 x = x := by
  unfold wrap64
  omega

/-- On any prefix of the dictionary-size list the wrapping fold coincides
with the exact product (all intermediate values are tiny). -/
lemma foldl_wrap_take (n : Nat) (hn : n ≤ 5) :
    (([87, 72, 40, 27, 26] : List Int).take n).foldl
        (fun t s => wrap64 (t * s)) 1 =
      (([87, 72, 40, 27, 26] : List Int).take n).prod := by
  interval_cases n <;> decide

/-- The specification-side product evaluated on the shipped dictionaries. -/
lemma dictProduct_eval (c : Int) :
    dictProduct c = (([87, 72, 40, 27, 26] : List Int).take c.toNat).prod := by
  have h : [(Adjectives.length : Int), (Nouns.length : Int),
      (Verbs.length : Int), (Adverbs.length : Int),
      (Prepositions.length : Int)] = ([87, 72, 40, 27, 26] : List Int) := by
    decide
  unfold dictProduct
  rw [h]

/-! C3: dictionary sizes and the stats accessor -/

/-- C3, counterexample: the five word lists do not have the claimed lengths
78, 68, 40, 27, 26 (the first two differ). -/
theorem dictionary_sizes_claimed_false :
    ¬(Adjectives.length = 78 ∧ Nouns.length = 68 ∧ Verbs.length = 40 ∧
      Adverbs.length = 27 ∧ Prepositions.length = 26) := by
  decide

/-- C3, amended: the five word lists have lengths Adjectives = 87,
Nouns = 72, Verbs = 40, Adverbs = 27, Prepositions = 26, and
`GetDictionaryStats` reports exactly these five list lengths. -/
theorem dictionary_sizes_actual :
    Adjectives.length = 87 ∧ Nouns.length = 72 ∧ Verbs.length = 40 ∧
    Adverbs.length = 27 ∧ Prepositions.length = 26 ∧
    GetDictionaryStats =
      { adjectives := (Adjectives.length : Int), nouns := (Nouns.length : Int),
        verbs := (Verbs.length : Int), adverbs := (Adverbs.length : Int),
        prepositions := (Prepositions.length : Int) } := by
  refine ⟨by decide, by decide, by decide, by decide, by decide, rfl⟩

/-! C10 and C8: CalculateCombinations and 64-bit wrap-around -/

/-- C10: `CalculateCombinations` multiplies in wrapping 64-bit machine
arithmetic, and on the valid input components = 1, suffixRange = 2^62 the
returned total is negative (it equals the wrapped product, -2^62, rather
than the mathematical product 87·2^62). -/
theorem calculateCombinations_wraps_negative :
    CalculateCombinations 1 (2 ^ 62) = wrap64 (87 * 2 ^ 62) ∧
    CalculateCombinations 1 (2 ^ 62) < 0 := by
  refine ⟨by decide, by decide⟩

/-- C8, counterexample: for components = 1 and suffixRange = 2^62 the
function does not return the product of the first dictionary length with the
suffix range (the 64-bit product wraps to a negative value). -/
theorem calculateCombinations_product_claim_false :
    ¬(CalculateCombinations 1 (2 ^ 62) = dictProduct 1 * 2 ^ 62) := by
  decide

/-- C8, amended: outside 1..5 the result is 0; inside 1..5 the result is the
product of the first `components` dictionary lengths times the clamped
suffix range, reduced to a signed 64-bit integer — hence equal to the exact
product whenever that product lies in [-2^63, 2^63) — and in particular
`CalculateCombinations 2 1 = len(Adjectives) · len(Nouns)` and
`CalculateCombinations 1 1000000 = len(Adjectives) · 1000000`. -/
theorem calculateCombinations_product (c s : Int) :
    (c < 1 ∨ 5 < c → CalculateCombinations c s = 0) ∧
    (1 ≤ c → c ≤ 5 →
      CalculateCombinations c s =
        wrap64 (dictProduct c * (if s < 1 then 1 else s))) ∧
    (1 ≤ c → c ≤ 5 →
      -(2 ^ 63) ≤ dictProduct c * (if s < 1 then 1 else s) →
      dictProduct c * (if s < 1 then 1 else s) < 2 ^ 63 →
      CalculateCombinations c s = dictProduct c * (if s < 1 then 1 else s)) ∧
    CalculateCombinations 2 1 = (Adjectives.length : Int) * Nouns.length ∧
    CalculateCombinations 1 1000000 = (Adjectives.length : Int) * 1000000 := by
  have hmain : 1 ≤ c → c ≤ 5 →
      CalculateCombinations c s =
        wrap64 (dictProduct c * (if s < 1 then 1 else s)) := by
    intro h1 h5
    rw [dictProduct_eval]
    unfold CalculateCombinations
    rw [if_neg (by omega)]
    simp only [getDictionaryStats_eval]
    rw [foldl_wrap_take c.toNat (by omega)]
  refine ⟨?_, hmain, ?_, by decide, by decide⟩
  · intro h
    unfold CalculateCombinations
    rw [if_pos (by omega)]
  · intro h1 h5 hlo hhi
    rw [hmain h1 h5, wrap64_eq_self _ hlo hhi]

/-- C8 witness: the amended characterisation instantiated at components = 2,
suffixRange = 1. -/
theorem calculateCombinations_product_witness :
    (1 : Int) ≤ 2 ∧ (2 : Int) ≤ 5 ∧
    CalculateCombinations 2 1 =
      wrap64 (dictProduct 2 * (if (1 : Int) < 1 then 1 else 1)) :=
  ⟨by decide, by decide,
   (calculateCombinations_product 2 1).2.1 (by decide) (by decide)⟩

/-! C6: defaults before validation in Generate -/

/-- C6: `Generate` applies the component default before validating, so it
fails precisely on negative component counts and counts above 5 — an explicit
0 never errors — and the only error value is the exact message
"components must be between 1 and 5". -/
theorem generate_error_iff (c : Int) (p : Option (Nat → Option String))
    (sep : String) (draws : Nat → Nat) (e : String) :
    Generate { components := c, suffix := p, separator := sep } draws =
        Except.error e ↔
      e = "components must be between 1 and 5" ∧ (c < 0 ∨ 5 < c) := by
  unfold Generate generateParts
  by_cases h : ((if c = 0 then (2 : Int) else c) < 1 ∨
      (if c = 0 then (2 : Int) else c) > 5)
  · rw [if_pos h]
    have hr : c < 0 ∨ 5 < c := by revert h; split_ifs <;> omega
    simp only [Except.error.injEq]
    exact ⟨fun he => ⟨he.symm, hr⟩, fun he => he.1.symm⟩
  · rw [if_neg h]
    have hr : ¬(c < 0 ∨ 5 < c) := by revert h; split_ifs <;> omega
    rcases p with _ | producer
    · simp [hr]
    · cases hp : producer 0 <;> simp [hp, hr]

/-! C5: Parse is total and classifies a numeric last part -/

/-- C5: `Parse` is defined for every input; it splits on the effective
separator (empty defaulting to "-"), classifies an all-digit last part as the
suffix with the remaining parts as components, and otherwise returns all
parts as components with no suffix; in particular Parse "123" "-" gives no
components and suffix "123", and Parse "" "-" gives the single component ""
and no suffix. -/
theorem parse_classifies (id sep : String) :
    (∀ lastPart,
      (stringsSplit id (if sep = "" then "-" else sep)).getLast? =
          some lastPart →
      (isNumericSuffix lastPart = true →
        Parse id sep =
          { components :=
              (stringsSplit id (if sep = "" then "-" else sep)).dropLast,
            suffix := some lastPart }) ∧
      (isNumericSuffix lastPart = false →
        Parse id sep =
          { components := stringsSplit id (if sep = "" then "-" else sep),
            suffix := none })) ∧
    Parse "123" "-" = { components := [], suffix := some "123" } ∧
    Parse "" "-" = { components := [""], suffix := none } := by
  refine ⟨?_, by decide, by decide⟩
  intro lastPart hlast
  constructor <;> intro hnum <;> simp only [Parse] <;> rw [hlast] <;>
    simp [hnum]

/-- C5 witness: the classification instantiated on the id
"cute-rabbit-042" with separator "-". -/
theorem parse_classifies_witness :
    (stringsSplit "cute-rabbit-042"
        (if "-" = "" then "-" else "-")).getLast? = some "042" ∧
    isNumericSuffix "042" = true ∧
    Parse "cute-rabbit-042" "-" =
      { components :=
          (stringsSplit "cute-rabbit-042"
            (if "-" = "" then "-" else "-")).dropLast,
        suffix := some "042" } :=
  ⟨by decide, by decide,
   ((parse_classifies "cute-rabbit-042" "-").1 "042" (by decide)).1
     (by decide)⟩

/-! C1: the noun "guinea-pig" breaks the round trip -/

/-- C1: evaluation at the failing random outcome.  With 2 components and the
draws picking adjective "cute" and noun "guinea-pig" (index 62 of `Nouns`),
the generated id is "cute-guinea-pig"; splitting it by the effective
separator yields 3 parts, not 2, the second part "guinea" is not a noun, and
`Parse` recovers 3 components — contradicting the claimed round trip (and
the repository's own generation and round-trip tests). -/
theorem generate_guinea_pig_breaks_roundtrip :
    Generate { components := 2, suffix := none, separator := "" }
        (fun i => if i = 1 then 62 else 0) =
      Except.ok ("cute-guinea-pig", 0) ∧
    Nouns.getD 62 "" = "guinea-pig" ∧
    stringsSplit "cute-guinea-pig" "-" = ["cute", "guinea", "pig"] ∧
    ¬("guinea" ∈ Nouns) ∧
    (Parse "cute-guinea-pig" "-").components.length = 3 :=
  ⟨rfl, by decide, by decide, by decide, by decide⟩

/-! C7: the suffix producer is invoked once and appended verbatim -/

/-- C7: with a valid (post-default) component count and a supplied suffix
producer, `generateParts` invokes the producer exactly once; a `none` result
appends nothing (the parts are exactly those generated without a producer,
one per component), while any string result — empty or whitespace included —
is appended verbatim as one additional final part. -/
theorem generate_suffix_once (c : Int) (producer : Nat → Option String)
    (sep : String) (draws : Nat → Nat) (h1 : 0 ≤ c) (h5 : c ≤ 5) :
    ∃ parts : List String,
      parts.length = (if c = 0 then (2 : Int) else c).toNat ∧
      generateParts { components := c, suffix := none, separator := sep }
          draws = Except.ok (parts, 0) ∧
      (producer 0 = none →
        generateParts
            { components := c, suffix := some producer, separator := sep }
            draws = Except.ok (parts, 1)) ∧
      (∀ str, producer 0 = some str →
        generateParts
            { components := c, suffix := some producer, separator := sep }
            draws = Except.ok (parts ++ [str], 1) ∧
        (parts ++ [str]).length = parts.length + 1 ∧
        (parts ++ [str]).getLast? = some str) := by
  have hcond : ¬((if c = 0 then (2 : Int) else c) < 1 ∨
      (if c = 0 then (2 : Int) else c) > 5) := by
    split_ifs <;> omega
  refine ⟨(List.range (if c = 0 then (2 : Int) else c).toNat).map
    (fun i => randomItem (componentDictionaries.getD i []) (draws i)),
    by simp, ?_, ?_, ?_⟩
  · simp only [generateParts]
    rw [if_neg hcond]
  · intro hp
    simp only [generateParts]
    rw [if_neg hcond]
    simp only [hp]
  · intro str hp
    refine ⟨?_, by simp, by simp⟩
    simp only [generateParts]
    rw [if_neg hcond]
    simp only [hp]

/-- C7 witness: two components with a producer returning the empty string;
the empty string is appended as a literal third part. -/
theorem generate_suffix_once_witness :
    (0 : Int) ≤ 2 ∧ (2 : Int) ≤ 5 ∧
    ∃ parts : List String,
      parts.length = (if (2 : Int) = 0 then (2 : Int) else 2).toNat ∧
      generateParts { components := 2, suffix := none, separator := "-" }
          (fun _ => 0) = Except.ok (parts, 0) ∧
      ((fun _ : Nat => some "") 0 = none →
        generateParts
            { components := 2, suffix := some (fun _ => some ""),
              separator := "-" }
            (fun _ => 0) = Except.ok (parts, 1)) ∧
      (∀ str, (fun _ : Nat => some "") 0 = some str →
        generateParts
            { components := 2, suffix := some (fun _ => some ""),
              separator := "-" }
            (fun _ => 0) = Except.ok (parts ++ [str], 1) ∧
        (parts ++ [str]).length = parts.length + 1 ∧
        (parts ++ [str]).getLast? = some str) :=
  ⟨by decide, by decide,
   generate_suffix_once 2 (fun _ => some "") "-" (fun _ => 0)
     (by decide) (by decide)⟩

/-! C4 and C9: the collision probability formula -/

/-- In the interior region, with no overflow in the 64-bit square, the
probability is the birthday-paradox expression over the exact square. -/
lemma collisionProbability_interior (T g : Int) (h1 : 1 < g) (hT : g < T)
    (hsq : g * g < 2 ^ 63) :
    CalculateCollisionProbability T g =
      1 - Real.exp (-((g : ℝ) * g) / (2 * (T : ℝ))) := by
  unfold CalculateCollisionProbability
  rw [if_neg (by omega), if_neg (by omega)]
  rw [wrap64_eq_self (g * g)
    (le_trans (by norm_num : -(2 ^ 63 : Int) ≤ 0) (mul_self_nonneg g)) hsq]
  push_cast
  ring_nf

/-- C4, counterexample: at total = 2^63 - 1 and generated = 2^32 the 64-bit
square of the generated count wraps to 0, so the function returns 0 instead
of the claimed floating-point value of 1 - exp(-g²/(2T)), which is
positive. -/
theorem collisionProbability_not_exact_formula :
    CalculateCollisionProbability (2 ^ 63 - 1) (2 ^ 32) ≠
      1 - Real.exp (-(((2 ^ 32 : Int) * 2 ^ 32 : Int) : ℝ) /
        (2 * ((2 ^ 63 - 1 : Int) : ℝ))) := by
  have hval : CalculateCollisionProbability (2 ^ 63 - 1) (2 ^ 32) = 0 := by
    unfold CalculateCollisionProbability
    rw [if_neg (by decide), if_neg (by decide)]
    rw [show wrap64 ((2 ^ 32 : Int) * 2 ^ 32) = 0 from by decide]
    norm_num
  rw [hval]
  have harg : -(((2 ^ 32 : Int) * 2 ^ 32 : Int) : ℝ) /
      (2 * ((2 ^ 63 - 1 : Int) : ℝ)) < 0 := by
    push_cast
    norm_num
  have hexp := Real.exp_lt_one_iff.mpr harg
  intro h0
  linarith

/-- C4, amended: the function returns 1 when generated ≥ total, 0 when
generated ≤ 1 (and < total), and otherwise 1 - exp(-w/(2·total)) where w is
the 64-bit-wrapped square of the generated count; when that square does not
overflow (g·g < 2^63) this is exactly the claimed expression
1 - exp(-g²/(2·total)). -/
theorem collisionProbability_formula (T g : Int) :
    (T ≤ g → CalculateCollisionProbability T g = 1) ∧
    (g < T → g ≤ 1 → CalculateCollisionProbability T g = 0) ∧
    (g < T → 1 < g →
      CalculateCollisionProbability T g =
        1 - Real.exp (-((wrap64 (g * g) : Int) : ℝ) / (2 * (T : ℝ)))) ∧
    (g < T → 1 < g → g * g < 2 ^ 63 →
      CalculateCollisionProbability T g =
        1 - Real.exp (-((g : ℝ) * g) / (2 * (T : ℝ)))) := by
  refine ⟨?_, ?_, ?_, ?_⟩
  · intro h
    unfold CalculateCollisionProbability
    rw [if_pos h]
  · intro hT h1
    unfold CalculateCollisionProbability
    rw [if_neg (by omega), if_pos h1]
  · intro hT h1
    unfold CalculateCollisionProbability
    rw [if_neg (by omega), if_neg (by omega)]
  · intro hT h1 hsq
    exact collisionProbability_interior T g h1 hT hsq

/-- C4 witness: the amended formula instantiated at total = 6264 (two
components) and generated = 100. -/
theorem collisionProbability_formula_witness :
    (100 : Int) < 6264 ∧ (1 : Int) < 100 ∧ (100 * 100 : Int) < 2 ^ 63 ∧
    CalculateCollisionProbability 6264 100 =
      1 - Real.exp (-(((100 : Int) : ℝ) * ((100 : Int) : ℝ)) /
        (2 * ((6264 : Int) : ℝ))) :=
  ⟨by decide, by decide, by decide,
   (collisionProbability_formula 6264 100).2.2.2 (by decide) (by decide)
     (by decide)⟩

/-- C9, counterexample: the result is not always within [0, 1] — at
total = 2^63 - 1 and generated = 3037000500 the 64-bit square wraps to a
negative value, the exponent becomes positive, and the returned probability
is negative. -/
theorem collisionProbability_below_zero :
    CalculateCollisionProbability (2 ^ 63 - 1) 3037000500 < 0 := by
  unfold CalculateCollisionProbability
  rw [if_neg (by decide), if_neg (by decide)]
  rw [show wrap64 ((3037000500 : Int) * 3037000500) =
    -9223372036709301616 from by decide]
  have harg : (0 : ℝ) < -((-9223372036709301616 : Int) : ℝ) /
      (2 * ((2 ^ 63 - 1 : Int) : ℝ)) := by
    push_cast
    norm_num
  have hexp := Real.one_lt_exp_iff.mpr harg
  linarith

/-- C9, amended: the probability lies in [0, 1] in the clamped regions and in
every interior case where the 64-bit square does not overflow, and in that
non-overflowing interior region it is strictly increasing in the generated
count for fixed total. -/
theorem collisionProbability_range_and_mono (T g g' : Int) :
    (g ≤ 1 ∨ T ≤ g →
      0 ≤ CalculateCollisionProbability T g ∧
      CalculateCollisionProbability T g ≤ 1) ∧
    (1 < g → g < T → g * g < 2 ^ 63 →
      0 ≤ CalculateCollisionProbability T g ∧
      CalculateCollisionProbability T g ≤ 1) ∧
    (1 < g → g < g' → g' < T → g' * g' < 2 ^ 63 →
      CalculateCollisionProbability T g <
        CalculateCollisionProbability T g') := by
  refine ⟨?_, ?_, ?_⟩
  · intro h
    unfold CalculateCollisionProbability
    rcases le_or_lt T g with hTg | hTg
    · rw [if_pos hTg]
      norm_num
    · have hg1 : g ≤ 1 := by omega
      rw [if_neg (by omega), if_pos hg1]
      norm_num
  · intro h1 hT hsq
    rw [collisionProbability_interior T g h1 hT hsq]
    have hTpos : (0 : ℝ) < (T : ℝ) := by
      exact_mod_cast (by omega : (0 : Int) < T)
    have hgg : (0 : ℝ) ≤ (g : ℝ) * g := mul_self_nonneg _
    have hx : -((g : ℝ) * g) / (2 * (T : ℝ)) ≤ 0 := by
      rw [neg_div]
      exact neg_nonpos.mpr (by positivity)
    have hle := Real.exp_le_one_iff.mpr hx
    have hpos := Real.exp_pos (-((g : ℝ) * g) / (2 * (T : ℝ)))
    constructor <;> linarith
  · intro h1 hgg' hT hsq'
    have h1' : 1 < g' := by omega
    have hTg : g < T := by omega
    have hsq : g * g < 2 ^ 63 := by
      nlinarith [mul_pos (by omega : (0 : Int) < g' - g)
        (by omega : (0 : Int) < g' + g)]
    rw [collisionProbability_interior T g h1 hTg hsq,
        collisionProbability_interior T g' h1' hT hsq']
    have hTpos : (0 : ℝ) < (T : ℝ) := by
      exact_mod_cast (by omega : (0 : Int) < T)
    have hgpos : (0 : ℝ) < (g : ℝ) := by
      exact_mod_cast (by omega : (0 : Int) < g)
    have hglt : (g : ℝ) < (g' : ℝ) := by exact_mod_cast hgg'
    have hlt : (g : ℝ) * g < (g' : ℝ) * g' := by nlinarith
    have harg : -((g' : ℝ) * g') / (2 * (T : ℝ)) <
        -((g : ℝ) * g) / (2 * (T : ℝ)) :=
      (div_lt_div_iff_of_pos_right (by positivity)).mpr (by linarith)
    have hexp := Real.exp_lt_exp.mpr harg
    linarith

/-- C9 witness: bounds and strict monotonicity instantiated at total = 6264
with generated counts 50 and 100. -/
theorem collisionProbability_range_and_mono_witness :
    (1 : Int) < 50 ∧ (50 : Int) < 100 ∧ (100 : Int) < 6264 ∧
    (100 * 100 : Int) < 2 ^ 63 ∧
    CalculateCollisionProbability 6264 50 <
      CalculateCollisionProbability 6264 100 :=
  ⟨by decide, by decide, by decide, by decide,
   (collisionProbability_range_and_mono 6264 50 100).2.2 (by decide)
     (by decide) (by decide) (by decide)⟩

/-! C2: the collision analysis scenario table -/

/-- The accumulating loop of `GetCollisionAnalysis` builds the filtered,
mapped candidate list. -/
lemma foldl_scenarios (th : Int) (f : Int → CollisionScenario) :
    ∀ (l : List Int) (acc : List CollisionScenario),
      l.foldl (fun acc size => if size < th then acc ++ [f size] else acc)
          acc =
        acc ++ (l.filter (fun size => size < th)).map f := by
  intro l
  induction l with
  | nil => simp
  | cons a l ih =>
      intro acc
      by_cases h : a < th <;>
        simp [List.foldl_cons, List.filter_cons, h, ih]

/-- Clamping the suffix range before calling `CalculateCombinations` is
redundant: the function clamps again internally. -/
lemma calculateCombinations_clamp (c s : Int) :
    CalculateCombinations c (if s < 1 then 1 else s) =
      CalculateCombinations c s := by
  unfold CalculateCombinations
  by_cases h : s < 1 <;> simp [h]

/-- The scenario list of `GetCollisionAnalysis`, in closed form. -/
lemma getCollisionAnalysis_eq (c s : Int) :
    GetCollisionAnalysis c s =
      { totalCombinations := CalculateCombinations c s
        scenarios :=
          (testSizes.filter (fun size =>
              size < floatThreshold (CalculateCombinations c s))).map
            (fun size =>
              { ids := size
                probability :=
                  CalculateCollisionProbability
                    (CalculateCombinations c s) size
                percentage :=
                  fmtPercent2
                    (CalculateCollisionProbability
                      (CalculateCombinations c s) size * 100) }) } := by
  simp only [GetCollisionAnalysis]
  rw [calculateCombinations_clamp]
  rw [foldl_scenarios]
  simp

/-- C2, counterexample: the inclusion threshold is the machine-integer
truncation of float64(total)·0.8, not the real value total·0.8.  With
components = 1 and suffixRange = 6360946232313638489 the wrapped total is 63;
the candidate 50 satisfies 50 < 63·0.8 = 50.4, yet the truncated threshold is
50 and the scenario list is empty. -/
theorem collisionAnalysis_real_threshold_false :
    CalculateCombinations 1 6360946232313638489 = 63 ∧
    (50 : ℝ) < (63 : ℝ) * 0.8 ∧
    (GetCollisionAnalysis 1 6360946232313638489).scenarios = [] := by
  refine ⟨by decide, by norm_num, ?_⟩
  rw [getCollisionAnalysis_eq]
  simp only [show CalculateCombinations 1 6360946232313638489 = 63 from
    by decide]
  rw [show floatThreshold 63 = 50 from by decide]
  rw [show testSizes.filter (fun size => size < 50) = [] from by decide,
    List.map_nil]

/-- C2, amended: `GetCollisionAnalysis` evaluates exactly the candidate
counts 50, 100, 200, 500, 1000, 2000, 5000, 10000, 20000, 50000 in ascending
order and includes candidate c if and only if c is strictly below the
integer truncation of float64(total)·0.8; each included scenario carries
probability `CalculateCollisionProbability total c` and the percentage
rendering of that probability times 100. -/
theorem collisionAnalysis_scenarios (c s : Int) :
    (GetCollisionAnalysis c s).totalCombinations =
      CalculateCombinations c s ∧
    (GetCollisionAnalysis c s).scenarios =
      (testSizes.filter (fun size =>
          size < floatThreshold (CalculateCombinations c s))).map
        (fun size =>
          { ids := size
            probability :=
              CalculateCollisionProbability (CalculateCombinations c s) size
            percentage :=
              fmtPercent2
                (CalculateCollisionProbability
                  (CalculateCombinations c s) size * 100) }) ∧
    (∀ n : Int,
      n ∈ (GetCollisionAnalysis c s).scenarios.map CollisionScenario.ids ↔
        n ∈ testSizes ∧ n < floatThreshold (CalculateCombinations c s)) := by
  rw [getCollisionAnalysis_eq]
  refine ⟨rfl, rfl, ?_⟩
  intro n
  simp only [List.map_map, List.mem_map, Function.comp]
  constructor
  · rintro ⟨m, hm, rfl⟩
    have := List.of_mem_filter hm
    exact ⟨List.mem_of_mem_filter hm, by simpa using this⟩
  · rintro ⟨hmem, hlt⟩
    exact ⟨n, List.mem_filter.mpr ⟨hmem, by simpa using hlt⟩, rfl⟩

end MemorableIds
